import Mathlib

/-!
Shallow embedding of the PII anonymizer service (`main.py`) and proofs about
its anonymization request pipeline: request validation, entity filtering,
operator resolution, handler orchestration and the error surface.

Conventions of the embedding:
* Python `str` is Lean `String`; `len` is `String.length` (character count),
  and `s[a:b]` is `pySlice` (drop/take on the character list, clamping as
  Python slices do for in-range non-negative indices).
* A Python value that may be `None` is an `Option`.
* Python exceptions are modelled with `Except`: a collaborator call that can
  raise returns `Except String α`, the `String` being `str(e)`.
* Floating point scores are carried through untouched by the pipeline, so
  they are embedded as `Rat` to stay executable and decidable.
* Wall-clock timing (`processing_time_ms`) is not modelled.
-/

namespace PiiAnonymizer

/-- Model of `Config` (main.py lines 35-41): application configuration read from the
environment; field values default to the fallback defaults of the source. -/
structure Config where
  DEFAULT_LANGUAGE : String := "en"
  MAX_TEXT_LENGTH : Nat := 10000
  SUPPORTED_LANGUAGES : List String := ["en", "es", "fr", "de", "it"]
  deriving Repr, DecidableEq

/-- The configuration obtained when none of the environment variables are
set: every field takes its source-code default. -/
def defaultConfig : Config := {}

/-- The `AnonymizationStrategy` enum (main.py lines 44-50). -/
inductive AnonymizationStrategy where
  | REPLACE
  | REDACT
  | HASH
  | MASK
  | ENCRYPT
  deriving Repr, DecidableEq

/-- The `EntityType` enum (main.py lines 52-66). -/
inductive EntityType where
  | PERSON
  | EMAIL_ADDRESS
  | PHONE_NUMBER
  | CREDIT_CARD
  | IBAN_CODE
  | IP_ADDRESS
  | DATE_TIME
  | LOCATION
  | ORGANIZATION
  | URL
  | US_SSN
  | US_PASSPORT
  | US_DRIVER_LICENSE
  deriving Repr, DecidableEq

/-- The `.value` of an `EntityType` member (the enum is a `str` enum, so the
value is the member string). -/
def EntityType.value : EntityType → String
  | .PERSON => "PERSON"
  | .EMAIL_ADDRESS => "EMAIL_ADDRESS"
  | .PHONE_NUMBER => "PHONE_NUMBER"
  | .CREDIT_CARD => "CREDIT_CARD"
  | .IBAN_CODE => "IBAN_CODE"
  | .IP_ADDRESS => "IP_ADDRESS"
  | .DATE_TIME => "DATE_TIME"
  | .LOCATION => "LOCATION"
  | .ORGANIZATION => "ORGANIZATION"
  | .URL => "URL"
  | .US_SSN => "US_SSN"
  | .US_PASSPORT => "US_PASSPORT"
  | .US_DRIVER_LICENSE => "US_DRIVER_LICENSE"

/-- The `AnonymizationConfig` model (main.py lines 69-75), with the field
defaults of the source. -/
structure AnonymizationConfig where
  strategy : AnonymizationStrategy := .REPLACE
  entities_to_anonymize : Option (List EntityType) := none
  replacement_text : Option String := none
  mask_char : String := "*"
  hash_type : String := "sha256"
  deriving Repr, DecidableEq

/-- The raw fields of an incoming `/anonymize` request body, before pydantic
validation: `language` and `config` may be omitted. -/
structure RawAnonymizeRequest where
  text : String
  language : Option String := none
  config : Option AnonymizationConfig := none
  deriving Repr, DecidableEq

/-- Model of `AnonymizeRequest` (main.py lines 77-87) after validation: `language`
holds either the supplied value or `Config.DEFAULT_LANGUAGE`. -/
structure AnonymizeRequest where
  text : String
  language : String
  config : Option AnonymizationConfig := none
  deriving Repr, DecidableEq

/-- One pydantic field-validation failure on an `/anonymize` request body. -/
inductive FieldError where
  | textTooShort
  | textTooLong
  | languageUnsupported (msg : String)
  deriving Repr, DecidableEq

/-- Errors contributed by the `text` field constraints
`Field(..., min_length=1, max_length=Config.MAX_TEXT_LENGTH)`
(main.py line 79). -/
def textErrors (cfg : Config) (text : String) : List FieldError :=
  if text.length < 1 then [.textTooShort]
  else if text.length > cfg.MAX_TEXT_LENGTH then [.textTooLong]
  else []

/-- Holds iff the `text` field passes its length constraints. -/
def passesLengthValidation (cfg : Config) (text : String) : Bool :=
  (textErrors cfg text).isEmpty

/-- The message of the `ValueError` raised by
`AnonymizeRequest.validate_language` (main.py line 86). -/
def languageErrorMsg (cfg : Config) (v : String) : String :=
  "Language \x27" ++ v ++ "\x27 not supported. Supported languages: " ++
    String.intercalate ", " cfg.SUPPORTED_LANGUAGES

/-- Model of `AnonymizeRequest.validate_language` (main.py lines 83-87): returns the
value unchanged, or raises a `ValueError` listing the supported set. -/
def validate_language (cfg : Config) (v : String) : Except String String :=
  if v ∈ cfg.SUPPORTED_LANGUAGES then .ok v
  else .error (languageErrorMsg cfg v)

/-- Errors contributed by the `language` field. Pydantic v1 runs a plain
`@validator` only on values the caller supplied, never on the field default,
so an omitted `language` contributes no error. -/
def languageErrors (cfg : Config) (language : Option String) : List FieldError :=
  match language with
  | none => []
  | some v =>
    match validate_language cfg v with
    | .ok _ => []
    | .error msg => [.languageUnsupported msg]

/-- Pydantic validation of the request body: collects the field errors, and
on success materialises `AnonymizeRequest` with the `language` default
applied. -/
def validateRequest (cfg : Config) (raw : RawAnonymizeRequest) :
    Except (List FieldError) AnonymizeRequest :=
  let errs := textErrors cfg raw.text ++ languageErrors cfg raw.language
  if errs.isEmpty then
    .ok { text := raw.text, language := raw.language.getD cfg.DEFAULT_LANGUAGE,
          config := raw.config }
  else .error errs

/-- A presidio `RecognizerResult` as the handler consumes it: entity type,
character offsets and confidence score. -/
structure RecognizerResult where
  entity_type : String
  start : Nat
  «end» : Nat
  score : Rat
  deriving Repr, DecidableEq

/-- The `DetectedEntity` response model (main.py lines 89-95). -/
structure DetectedEntity where
  entity_type : String
  start : Nat
  «end» : Nat
  score : Rat
  text : String
  deriving Repr, DecidableEq

/-- The `AnonymizeResponse` model (main.py lines 97-103) minus the wall-clock
`processing_time_ms` field, which is not modelled. -/
structure AnonymizeResponse where
  anonymized_text : String
  detected_entities : List DetectedEntity
  original_length : Nat
  anonymized_length : Nat
  deriving Repr, DecidableEq

/-- A parameter value inside an `OperatorConfig` params dict. -/
inductive ParamValue where
  | str (s : String)
  | int (i : Int)
  deriving Repr, DecidableEq

/-- Model of `OperatorConfig(operator_name, params)` (presidio operator descriptor as
constructed in main.py lines 275-281). -/
structure OperatorConfig where
  operator_name : String
  params : List (String × ParamValue) := []
  deriving Repr, DecidableEq

/-- Python `x or dflt` on an optional string: `None` and the empty string
are falsy. -/
def pyOrString (o : Option String) (dflt : String) : String :=
  match o with
  | none => dflt
  | some s => if s = "" then dflt else s

/-- Python `s[a:b]` for non-negative `a`, `b`, on characters (clamps like a
Python slice). -/
def pySlice (s : String) (a b : Nat) : String :=
  String.mk ((s.toList.drop a).take (b - a))

/-- Operator resolution (main.py lines 272-281): `operators` starts as the
empty dict and is assigned a single `"DEFAULT"` entry per strategy; the
`ENCRYPT` strategy has no branch, so the dict stays empty, as it does when
`config` is absent. -/
def resolveOperators : Option AnonymizationConfig → List (String × OperatorConfig)
  | none => []
  | some c =>
    match c.strategy with
    | .REPLACE =>
      [("DEFAULT", { operator_name := "replace",
                     params := [("new_value", .str (pyOrString c.replacement_text "<ANONYMIZED>"))] })]
    | .REDACT => [("DEFAULT", { operator_name := "redact" })]
    | .MASK =>
      [("DEFAULT", { operator_name := "mask",
                     params := [("masking_char", .str c.mask_char),
                                ("chars_to_mask", .int (-1))] })]
    | .HASH =>
      [("DEFAULT", { operator_name := "hash",
                     params := [("hash_type", .str c.hash_type)] })]
    | .ENCRYPT => []

/-- The `operators` argument actually passed to the anonymizer engine
(main.py line 287): `operators if operators else None`, i.e. `None` when the
dict is empty. -/
def passedOperators (config : Option AnonymizationConfig) :
    Option (List (String × OperatorConfig)) :=
  let operators := resolveOperators config
  if operators.isEmpty then none else some operators

/-- Entity filtering (main.py lines 264-269): runs only when
`request.config` is truthy AND `request.config.entities_to_anonymize` is
truthy (a `None` or empty list is falsy); keeps results whose
`entity_type` is in `[e.value for e in entities_to_anonymize]`. -/
def filterEntities (config : Option AnonymizationConfig)
    (results : List RecognizerResult) : List RecognizerResult :=
  match config with
  | none => results
  | some c =>
    match c.entities_to_anonymize with
    | none => results
    | some ets =>
      if ets.isEmpty then results
      else results.filter (fun r => (ets.map EntityType.value).contains r.entity_type)

/-- The module-level engine handles (main.py lines 118-120): each is `None`
until the lifespan hook initialises it. An analyzer maps (text, language) to
recognizer results or raises; an anonymizer maps (text, results, operators)
to the anonymized text or raises. -/
structure Engines where
  analyzer_engine : Option (String → String → Except String (List RecognizerResult))
  anonymizer_engine :
    Option (String → List RecognizerResult →
      Option (List (String × OperatorConfig)) → Except String String)

/-- A Python exception as seen by the `except Exception` clause of the handler:
either an `HTTPException` (status code + detail) or any other exception
carrying its message. -/
inductive PyExc where
  | http (status_code : Nat) (detail : String)
  | exc (msg : String)
  deriving Repr, DecidableEq

/-- Computes `str(e)` for the two exception shapes; a starlette `HTTPException`
stringifies as `"{status_code}: {detail}"`. -/
def PyExc.toMessage : PyExc → String
  | .http s d => Nat.repr s ++ ": " ++ d
  | .exc m => m

/-- Builds one `DetectedEntity` response entry from a recognizer result
(main.py lines 292-298): the `text` field is sliced from the request text. -/
def toDetectedEntity (text : String) (r : RecognizerResult) : DetectedEntity :=
  { entity_type := r.entity_type, start := r.start, «end» := r.«end»,
    score := r.score, text := pySlice text r.start r.«end» }

/-- The `try` body of `anonymize_text` (main.py lines 250-312): raises
`HTTPException(503)` when either engine handle is `None`, then analyzer
call, entity filter, operator resolution, anonymizer call, response
assembly. Any exception escapes to the `except` clause. -/
def anonymizeBody (engines : Engines) (req : AnonymizeRequest) :
    Except PyExc AnonymizeResponse :=
  match engines.analyzer_engine, engines.anonymizer_engine with
  | some analyzer, some anonymizer =>
    match analyzer req.text req.language with
    | .error e => .error (.exc e)
    | .ok analyzer_results =>
      let analyzer_results := filterEntities req.config analyzer_results
      match anonymizer req.text analyzer_results (passedOperators req.config) with
      | .error e => .error (.exc e)
      | .ok anonymized_text =>
        .ok { anonymized_text := anonymized_text,
              detected_entities := analyzer_results.map (toDetectedEntity req.text),
              original_length := req.text.length,
              anonymized_length := anonymized_text.length }
  | _, _ => .error (.http 503 "Anonymization engines not initialized")

/-- Outcome of the `/anonymize` handler: a 200 response body or a raised
`HTTPException`. -/
inductive HandlerResult where
  | ok (response : AnonymizeResponse)
  | httpError (status_code : Nat) (detail : String)
  deriving Repr, DecidableEq

/-- Model of `anonymize_text` (main.py lines 240-319). The `except Exception` clause
(line 314) catches EVERY exception from the `try` body — including the
`HTTPException(503)` raised at line 251 — and re-raises
`HTTPException(500, "Anonymization failed: " + str(e))`. -/
def anonymize_text (engines : Engines) (req : AnonymizeRequest) : HandlerResult :=
  match anonymizeBody engines req with
  | .ok resp => .ok resp
  | .error e => .httpError 500 ("Anonymization failed: " ++ e.toMessage)

/-- Outcome of `POST /anonymize` at the HTTP boundary: pydantic validation
errors are reported before the handler runs. -/
inductive EndpointResult where
  | ok (response : AnonymizeResponse)
  | httpError (status_code : Nat) (detail : String)
  | validationError (errors : List FieldError)
  deriving Repr, DecidableEq

/-- The full endpoint pipeline: FastAPI runs pydantic validation of the body
first; only a validated request reaches `anonymize_text`. -/
def postAnonymize (cfg : Config) (engines : Engines)
    (raw : RawAnonymizeRequest) : EndpointResult :=
  match validateRequest cfg raw with
  | .error errs => .validationError errs
  | .ok req =>
    match anonymize_text engines req with
    | .ok resp => .ok resp
    | .httpError s d => .httpError s d

/-! ## Concrete fixtures used by witnesses and counterexamples -/

/-- The process state before the lifespan hook runs: both engine handles are
`None`. -/
def enginesUninitialized : Engines := ⟨none, none⟩

/-- The request body `{"text": "Test text"}` after validation under the
default configuration. -/
def reqTest : AnonymizeRequest := { text := "Test text", language := "en" }

/-- A pair of ready engines whose analyzer raises `Exception("boom")`. -/
def enginesDetectorRaises : Engines :=
  ⟨some (fun _ _ => .error "boom"), some (fun _ _ _ => .ok "")⟩

/-- A pair of ready engines whose analyzer succeeds (finding nothing) and
whose anonymizer raises `Exception("boom")`. -/
def enginesRedactorRaises : Engines :=
  ⟨some (fun _ _ => .ok []), some (fun _ _ _ => .error "boom")⟩

/-- Detector output for the scenario text
`"John Doe email is john@example.com"`. -/
def sampleResults : List RecognizerResult :=
  [⟨"PERSON", 0, 8, 17/20⟩, ⟨"EMAIL_ADDRESS", 18, 34, 1⟩]

/-- Ready engines: the analyzer returns `sampleResults` and the anonymizer
returns the fixed text `"masked"`. -/
def sampleEngines : Engines :=
  ⟨some (fun _ _ => .ok sampleResults), some (fun _ _ _ => .ok "masked")⟩

/-- The scenario request: no config, default language. -/
def sampleReq : AnonymizeRequest :=
  { text := "John Doe email is john@example.com", language := "en" }

/-! ## Claim theorems -/

/-- C1: the claim says that with an `Uninitialized` engine handle the
`/anonymize` call fails with `ServiceUnavailable` (HTTP 503). The code does
raise `HTTPException(503, "Anonymization engines not initialized")`, but the
own `except Exception` clause of the handler catches it and re-raises a 500
whose detail wraps the string form of the 503. This theorem evaluates the handler at
the failing input: both handles `None`, request `{"text": "Test text"}`.
The call indeed never yields a 200 and no collaborator runs, but the status
surfaced is 500, not 503. -/
theorem c1_uninitialized_surfaces_500 :
    anonymize_text enginesUninitialized reqTest
      = .httpError 500 "Anonymization failed: 503: Anonymization engines not initialized"
    ∧ ∀ resp, anonymize_text enginesUninitialized reqTest ≠ HandlerResult.ok resp := by
  refine ⟨rfl, ?_⟩
  intro resp h
  have h1 : anonymize_text enginesUninitialized reqTest
      = .httpError 500 "Anonymization failed: 503: Anonymization engines not initialized" := rfl
  rw [h1] at h
  exact HandlerResult.noConfusion h

/-- C2 counterexample: the claim says a Detector failure (`AnalysisFailed`)
and a Redactor failure (`RedactionFailed`) are distinct error kinds at the
API boundary. On the code, a detector that raises `"boom"` and a redactor
that raises `"boom"` produce literally identical API results — the same
HTTP 500 with the same detail — so the two kinds are indistinguishable. -/
theorem c2_failures_indistinguishable :
    anonymize_text enginesDetectorRaises reqTest
      = anonymize_text enginesRedactorRaises reqTest
    ∧ anonymize_text enginesDetectorRaises reqTest
      = .httpError 500 "Anonymization failed: boom" :=
  ⟨rfl, rfl⟩

/-- C2 (amended): with both engines ready, an exception raised by the
analyzer call, and likewise one raised by the anonymizer call, is caught and
surfaced as the single generic failure `HTTPException(500,
"Anonymization failed: " + str(e))` — the message wraps the underlying
cause, but analysis and redaction failures share one undistinguished kind. -/
theorem c2_uniform_failure_wrapping (engines : Engines) (req : AnonymizeRequest)
    (analyzer : String → String → Except String (List RecognizerResult))
    (anonymizer : String → List RecognizerResult →
      Option (List (String × OperatorConfig)) → Except String String)
    (msg : String)
    (hana : engines.analyzer_engine = some analyzer)
    (hanon : engines.anonymizer_engine = some anonymizer) :
    (analyzer req.text req.language = .error msg →
      anonymize_text engines req = .httpError 500 ("Anonymization failed: " ++ msg))
    ∧ ∀ results, analyzer req.text req.language = .ok results →
        anonymizer req.text (filterEntities req.config results)
            (passedOperators req.config) = .error msg →
        anonymize_text engines req = .httpError 500 ("Anonymization failed: " ++ msg) := by
  constructor
  · intro hfail
    simp [anonymize_text, anonymizeBody, hana, hanon, hfail, PyExc.toMessage]
  · intro results hok hfail
    simp [anonymize_text, anonymizeBody, hana, hanon, hok, hfail, PyExc.toMessage]

/-- C2 witness: the amended theorem applied to the concrete engines whose
analyzer raises `"boom"`. -/
theorem c2_uniform_failure_wrapping_witness :
    anonymize_text enginesDetectorRaises reqTest
      = .httpError 500 ("Anonymization failed: " ++ "boom") :=
  (c2_uniform_failure_wrapping enginesDetectorRaises reqTest
    (fun _ _ => .error "boom") (fun _ _ _ => .ok "") "boom" rfl rfl).1 rfl

/-- C3: entity filtering is the identity when `config` is absent or
`entities_to_anonymize` is `None`/empty; otherwise it is the stable filter
keeping exactly the results whose `entity_type` is the value of a requested
entity type — a sublist of the detector output (order preserved, nothing
re-sorted, nothing deduplicated, nothing added). -/
theorem c3_entity_filter (config : Option AnonymizationConfig)
    (l : List RecognizerResult) :
    ((config = none ∨ ∃ c, config = some c ∧
        (c.entities_to_anonymize = none ∨ c.entities_to_anonymize = some [])) →
      filterEntities config l = l)
    ∧ ∀ c ets, config = some c → c.entities_to_anonymize = some ets → ets ≠ [] →
        filterEntities config l
          = l.filter (fun r => (ets.map EntityType.value).contains r.entity_type)
        ∧ (filterEntities config l).Sublist l
        ∧ ∀ r, r ∈ filterEntities config l ↔
            r ∈ l ∧ r.entity_type ∈ ets.map EntityType.value := by
  constructor
  · rintro (rfl | ⟨c, rfl, h | h⟩)
    · rfl
    · simp [filterEntities, h]
    · simp [filterEntities, h]
  · rintro c ets rfl hets hne
    have hfe : filterEntities (some c) l
        = l.filter (fun r => (ets.map EntityType.value).contains r.entity_type) := by
      simp [filterEntities, hets, List.isEmpty_iff, hne]
    refine ⟨hfe, ?_, ?_⟩
    · rw [hfe]; exact List.filter_sublist l
    · intro r
      rw [hfe, List.mem_filter]
      simp [List.contains, List.elem_iff]

/-- C3 witness: filtering `sampleResults` down to `PERSON` keeps exactly the
person span, in place. -/
theorem c3_entity_filter_witness :
    filterEntities (some { entities_to_anonymize := some [EntityType.PERSON] })
        sampleResults
      = sampleResults.filter
          (fun r => ([EntityType.PERSON].map EntityType.value).contains r.entity_type) :=
  ((c3_entity_filter
      (some { entities_to_anonymize := some [EntityType.PERSON] }) sampleResults).2
    { entities_to_anonymize := some [EntityType.PERSON] }
    [EntityType.PERSON] rfl rfl (by decide)).1

/-- The response produced by `sampleEngines` on `sampleReq`. -/
def sampleResp : AnonymizeResponse :=
  { anonymized_text := "masked",
    detected_entities :=
      [⟨"PERSON", 0, 8, 17/20, "John Doe"⟩,
       ⟨"EMAIL_ADDRESS", 18, 34, 1, "john@example.com"⟩],
    original_length := 34,
    anonymized_length := 6 }

/-- Inversion of the success path of the handler: a 200 response can only come
out of ready engines, a successful analyzer call and a successful anonymizer
call, and its body is exactly the record assembled at main.py lines
306-312. -/
theorem anonymize_text_ok_inversion (engines : Engines) (req : AnonymizeRequest)
    (resp : AnonymizeResponse) (h : anonymize_text engines req = .ok resp) :
    ∃ analyzer anonymizer results anonymized_text,
      engines.analyzer_engine = some analyzer
      ∧ engines.anonymizer_engine = some anonymizer
      ∧ analyzer req.text req.language = .ok results
      ∧ anonymizer req.text (filterEntities req.config results)
          (passedOperators req.config) = .ok anonymized_text
      ∧ resp = { anonymized_text := anonymized_text,
                 detected_entities :=
                   (filterEntities req.config results).map (toDetectedEntity req.text),
                 original_length := req.text.length,
                 anonymized_length := anonymized_text.length } := by
  cases hae : engines.analyzer_engine with
  | none => simp [anonymize_text, anonymizeBody, hae] at h
  | some analyzer =>
    cases hao : engines.anonymizer_engine with
    | none => simp [anonymize_text, anonymizeBody, hae, hao] at h
    | some anonymizer =>
      cases hres : analyzer req.text req.language with
      | error e => simp [anonymize_text, anonymizeBody, hae, hao, hres] at h
      | ok results =>
        cases hanon : anonymizer req.text (filterEntities req.config results)
            (passedOperators req.config) with
        | error e => simp [anonymize_text, anonymizeBody, hae, hao, hres, hanon] at h
        | ok out =>
          simp only [anonymize_text, anonymizeBody, hae, hao, hres, hanon,
            HandlerResult.ok.injEq] at h
          exact ⟨analyzer, anonymizer, results, out, rfl, rfl, hres, hanon, h.symm⟩

/-- C4: operator resolution for a present config yields exactly one uniform
`"DEFAULT"` operator per non-ENCRYPT strategy — REPLACE with
`replacement_text or "<ANONYMIZED>"`, REDACT, MASK with the configured mask
character over the whole span (`chars_to_mask = -1`), HASH with the configured
hash type — and an absent config passes no operator map to the Redactor. -/
theorem c4_operator_resolution (c : AnonymizationConfig) :
    (c.strategy = .REPLACE → resolveOperators (some c)
      = [("DEFAULT",
          { operator_name := "replace",
            params := [("new_value", .str (pyOrString c.replacement_text "<ANONYMIZED>"))] })])
    ∧ (c.strategy = .REDACT → resolveOperators (some c)
        = [("DEFAULT", { operator_name := "redact" })])
    ∧ (c.strategy = .MASK → resolveOperators (some c)
        = [("DEFAULT",
            { operator_name := "mask",
              params := [("masking_char", .str c.mask_char),
                         ("chars_to_mask", .int (-1))] })])
    ∧ (c.strategy = .HASH → resolveOperators (some c)
        = [("DEFAULT",
            { operator_name := "hash",
              params := [("hash_type", .str c.hash_type)] })])
    ∧ (c.strategy ≠ .ENCRYPT →
        ∃ op, resolveOperators (some c) = [("DEFAULT", op)])
    ∧ passedOperators none = none := by
  refine ⟨?_, ?_, ?_, ?_, ?_, rfl⟩ <;> intro h
  · simp [resolveOperators, h]
  · simp [resolveOperators, h]
  · simp [resolveOperators, h]
  · simp [resolveOperators, h]
  · cases hs : c.strategy
    · exact ⟨{ operator_name := "replace",
               params := [("new_value",
                 .str (pyOrString c.replacement_text "<ANONYMIZED>"))] },
        by simp [resolveOperators, hs]⟩
    · exact ⟨{ operator_name := "redact" }, by simp [resolveOperators, hs]⟩
    · exact ⟨{ operator_name := "hash",
               params := [("hash_type", .str c.hash_type)] },
        by simp [resolveOperators, hs]⟩
    · exact ⟨{ operator_name := "mask",
               params := [("masking_char", .str c.mask_char),
                          ("chars_to_mask", .int (-1))] },
        by simp [resolveOperators, hs]⟩
    · exact absurd hs h

/-- C4 witness: a bare REPLACE config resolves to the single default replace
operator carrying the fallback token. -/
theorem c4_operator_resolution_witness :
    resolveOperators (some { strategy := .REPLACE })
      = [("DEFAULT",
          { operator_name := "replace",
            params := [("new_value", .str (pyOrString none "<ANONYMIZED>"))] })] :=
  (c4_operator_resolution { strategy := .REPLACE }).1 rfl

/-- C5: in every 200 response the `detected_entities` list is built by mapping
the response constructor over the FILTERED analyzer results (not the raw
detector output), and the `text` of every entry is the slice of the original
request text between the offsets of that same entry — never a slice of the
anonymized output. -/
theorem c5_response_entities (engines : Engines) (req : AnonymizeRequest)
    (resp : AnonymizeResponse) (h : anonymize_text engines req = .ok resp) :
    (∃ analyzer results,
        engines.analyzer_engine = some analyzer
        ∧ analyzer req.text req.language = .ok results
        ∧ resp.detected_entities
            = (filterEntities req.config results).map (toDetectedEntity req.text))
    ∧ ∀ e ∈ resp.detected_entities, e.text = pySlice req.text e.start e.«end» := by
  obtain ⟨analyzer, anonymizer, results, out, hae, hao, hres, hanon, rfl⟩ :=
    anonymize_text_ok_inversion engines req resp h
  refine ⟨⟨analyzer, results, hae, hres, rfl⟩, ?_⟩
  intro e he
  obtain ⟨r, hr, rfl⟩ := List.mem_map.mp he
  rfl

/-- C5 witness: the shape of the scenario response. -/
theorem c5_response_entities_witness :
    (∃ analyzer results,
        sampleEngines.analyzer_engine = some analyzer
        ∧ analyzer sampleReq.text sampleReq.language = .ok results
        ∧ sampleResp.detected_entities
            = (filterEntities sampleReq.config results).map (toDetectedEntity sampleReq.text))
    ∧ ∀ e ∈ sampleResp.detected_entities,
        e.text = pySlice sampleReq.text e.start e.«end» :=
  c5_response_entities sampleEngines sampleReq sampleResp rfl

/-- C6: every 200 response reports `original_length` as the character count
of the submitted text and `anonymized_length` as the character count of the
returned anonymized text. -/
theorem c6_lengths (engines : Engines) (req : AnonymizeRequest)
    (resp : AnonymizeResponse) (h : anonymize_text engines req = .ok resp) :
    resp.original_length = req.text.length
    ∧ resp.anonymized_length = resp.anonymized_text.length := by
  obtain ⟨analyzer, anonymizer, results, out, hae, hao, hres, hanon, rfl⟩ :=
    anonymize_text_ok_inversion engines req resp h
  exact ⟨rfl, rfl⟩

/-- C6 witness: the two length fields of the scenario response. -/
theorem c6_lengths_witness :
    sampleResp.original_length = sampleReq.text.length
    ∧ sampleResp.anonymized_length = sampleResp.anonymized_text.length :=
  c6_lengths sampleEngines sampleReq sampleResp rfl

/-- A tightened configuration used to witness the length boundary. -/
def smallConfig : Config := { MAX_TEXT_LENGTH := 5, SUPPORTED_LANGUAGES := ["en"] }

/-- Request body with an empty `text`. -/
def rawEmpty : RawAnonymizeRequest := { text := "" }

/-- Request body whose `text` length equals `smallConfig.MAX_TEXT_LENGTH`. -/
def rawBoundary : RawAnonymizeRequest := { text := "abcde" }

/-- C7: a text of length 0 or above `MAX_TEXT_LENGTH` is rejected by
validation — and the endpoint result is then the same whatever the engines
hold, i.e. no collaborator is consulted — while any length in
`1..MAX_TEXT_LENGTH` (the boundary included) passes length validation. -/
theorem c7_length_validation (cfg : Config) (raw : RawAnonymizeRequest) :
    ((raw.text.length = 0 ∨ raw.text.length > cfg.MAX_TEXT_LENGTH) →
      (∃ errs, validateRequest cfg raw = .error errs
        ∧ (FieldError.textTooShort ∈ errs ∨ FieldError.textTooLong ∈ errs))
      ∧ ∀ engines engines2 : Engines,
          postAnonymize cfg engines raw = postAnonymize cfg engines2 raw)
    ∧ (1 ≤ raw.text.length → raw.text.length ≤ cfg.MAX_TEXT_LENGTH →
        passesLengthValidation cfg raw.text = true) := by
  constructor
  · intro h
    have hte : FieldError.textTooShort ∈ textErrors cfg raw.text
        ∨ FieldError.textTooLong ∈ textErrors cfg raw.text := by
      rcases h with h0 | hgt
      · left; simp [textErrors, h0]
      · right
        have h1 : ¬ raw.text.length < 1 := by omega
        simp [textErrors, h1, hgt]
    have hmem : FieldError.textTooShort ∈
          textErrors cfg raw.text ++ languageErrors cfg raw.language
        ∨ FieldError.textTooLong ∈
          textErrors cfg raw.text ++ languageErrors cfg raw.language := by
      rcases hte with h1 | h1
      · exact Or.inl (List.mem_append_left _ h1)
      · exact Or.inr (List.mem_append_left _ h1)
    have hne : textErrors cfg raw.text ++ languageErrors cfg raw.language ≠ [] := by
      intro hnil
      rcases hmem with h1 | h1 <;> { rw [hnil] at h1; exact absurd h1 (List.not_mem_nil _) }
    have herr : validateRequest cfg raw
        = .error (textErrors cfg raw.text ++ languageErrors cfg raw.language) := by
      unfold validateRequest
      rw [if_neg (by simpa [List.isEmpty_iff] using hne)]
    exact ⟨⟨_, herr, hmem⟩, fun engines engines2 => by
      simp [postAnonymize, herr]⟩
  · intro h1 h2
    have hn1 : ¬ raw.text.length < 1 := by omega
    have hn2 : ¬ raw.text.length > cfg.MAX_TEXT_LENGTH := by omega
    simp [passesLengthValidation, textErrors, hn1, hn2]

/-- C7 witness: the empty text is rejected identically under any engine
state, and a text exactly at the maximum length passes. -/
theorem c7_length_validation_witness :
    (∃ errs, validateRequest defaultConfig rawEmpty = .error errs
      ∧ (FieldError.textTooShort ∈ errs ∨ FieldError.textTooLong ∈ errs))
    ∧ postAnonymize defaultConfig enginesUninitialized rawEmpty
        = postAnonymize defaultConfig sampleEngines rawEmpty
    ∧ passesLengthValidation smallConfig rawBoundary.text = true :=
  ⟨((c7_length_validation defaultConfig rawEmpty).1 (Or.inl rfl)).1,
   ((c7_length_validation defaultConfig rawEmpty).1 (Or.inl rfl)).2
     enginesUninitialized sampleEngines,
   (c7_length_validation smallConfig rawBoundary).2 (by decide) (by decide)⟩

/-- C8: an unsupported language value fails `validate_language` with the
message that enumerates the supported set (and the whole request then fails
validation carrying that error), while every supported value passes the
language check whatever the rest of the request holds. -/
theorem c8_language_validation (cfg : Config) (v : String) :
    (v ∉ cfg.SUPPORTED_LANGUAGES →
      validate_language cfg v = .error
        ("Language \x27" ++ v ++ "\x27 not supported. Supported languages: "
          ++ String.intercalate ", " cfg.SUPPORTED_LANGUAGES))
    ∧ (v ∈ cfg.SUPPORTED_LANGUAGES → validate_language cfg v = .ok v)
    ∧ (∀ raw : RawAnonymizeRequest, raw.language = some v →
        v ∉ cfg.SUPPORTED_LANGUAGES →
        ∃ errs, validateRequest cfg raw = .error errs
          ∧ FieldError.languageUnsupported (languageErrorMsg cfg v) ∈ errs)
    ∧ (∀ raw : RawAnonymizeRequest, raw.language = some v →
        v ∈ cfg.SUPPORTED_LANGUAGES → languageErrors cfg raw.language = []) := by
  refine ⟨?_, ?_, ?_, ?_⟩
  · intro h; simp [validate_language, languageErrorMsg, h]
  · intro h; simp [validate_language, h]
  · intro raw hlang h
    have hle : languageErrors cfg raw.language
        = [.languageUnsupported (languageErrorMsg cfg v)] := by
      rw [hlang]; simp [languageErrors, validate_language, h]
    have hmem : FieldError.languageUnsupported (languageErrorMsg cfg v) ∈
        textErrors cfg raw.text ++ languageErrors cfg raw.language := by
      rw [hle]; exact List.mem_append_right _ (List.mem_singleton.mpr rfl)
    have hne : textErrors cfg raw.text ++ languageErrors cfg raw.language ≠ [] := by
      intro hnil; rw [hnil] at hmem; exact absurd hmem (List.not_mem_nil _)
    have herr : validateRequest cfg raw
        = .error (textErrors cfg raw.text ++ languageErrors cfg raw.language) := by
      unfold validateRequest
      rw [if_neg (by simpa [List.isEmpty_iff] using hne)]
    exact ⟨_, herr, hmem⟩
  · intro raw hlang h
    rw [hlang]; simp [languageErrors, validate_language, h]

/-- C8 witness: the language `"xx"` is rejected under the default
configuration with the enumerating message. -/
theorem c8_language_validation_witness :
    validate_language defaultConfig "xx" = .error
      ("Language \x27" ++ "xx" ++ "\x27 not supported. Supported languages: "
        ++ String.intercalate ", " defaultConfig.SUPPORTED_LANGUAGES) :=
  (c8_language_validation defaultConfig "xx").1 (by decide)

/-- The handler is invariant under configs that filter identically and
resolve to the same passed operator map. -/
theorem anonymize_text_config_congr (cfg1 cfg2 : Option AnonymizationConfig)
    (hfe : ∀ l, filterEntities cfg1 l = filterEntities cfg2 l)
    (hop : passedOperators cfg1 = passedOperators cfg2)
    (engines : Engines) (text lang : String) :
    anonymize_text engines { text := text, language := lang, config := cfg1 }
      = anonymize_text engines { text := text, language := lang, config := cfg2 } := by
  cases hae : engines.analyzer_engine with
  | none => simp [anonymize_text, anonymizeBody, hae]
  | some analyzer =>
    cases hao : engines.anonymizer_engine with
    | none => simp [anonymize_text, anonymizeBody, hae, hao]
    | some anonymizer =>
      cases hres : analyzer text lang with
      | error e => simp [anonymize_text, anonymizeBody, hae, hao, hres]
      | ok results => simp [anonymize_text, anonymizeBody, hae, hao, hres, hfe, hop]

/-- The config `{"strategy": "encrypt"}`. -/
def encryptConfig : AnonymizationConfig := { strategy := .ENCRYPT }

/-- C9: an ENCRYPT config resolves to the empty operator dict, so no
operator override is passed to the anonymizer (exactly as when `config` is
absent), and — as long as the config does not also request entity filtering
— the whole request behaves identically to one with no config at all: the
strategy never fails and never reports itself unimplemented. -/
theorem c9_encrypt_noop (c : AnonymizationConfig) (h : c.strategy = .ENCRYPT) :
    resolveOperators (some c) = []
    ∧ passedOperators (some c) = none
    ∧ passedOperators (some c) = passedOperators none
    ∧ ∀ (engines : Engines) (text lang : String),
        (c.entities_to_anonymize = none ∨ c.entities_to_anonymize = some []) →
        anonymize_text engines { text := text, language := lang, config := some c }
          = anonymize_text engines { text := text, language := lang, config := none } := by
  have hro : resolveOperators (some c) = [] := by simp [resolveOperators, h]
  have hpn : passedOperators (some c) = none := by simp [passedOperators, hro]
  refine ⟨hro, hpn, by rw [hpn]; rfl, ?_⟩
  intro engines text lang hets
  apply anonymize_text_config_congr
  · intro l
    rcases hets with h1 | h1 <;> simp [filterEntities, h1]
  · rw [hpn]; rfl

/-- C9 witness: a bare encrypt config behaves like no config on the sample
engines. -/
theorem c9_encrypt_noop_witness :
    anonymize_text sampleEngines
        { text := "abc", language := "en", config := some encryptConfig }
      = anonymize_text sampleEngines { text := "abc", language := "en", config := none } :=
  (c9_encrypt_noop encryptConfig rfl).2.2.2 sampleEngines "abc" "en" (Or.inl rfl)

/-- The request body `{"text": "hi"}`, language omitted. -/
def rawHi : RawAnonymizeRequest := { text := "hi" }

/-- The validated form of `rawHi` under the default configuration. -/
def reqHi : AnonymizeRequest := { text := "hi", language := "en" }

/-- C10: when the `language` field is omitted it contributes no validation
error (the pydantic validator does not run on the default), the validated
request carries `Config.DEFAULT_LANGUAGE`, and under the default
configuration that default, `"en"`, is one of the supported languages. -/
theorem c10_default_language (cfg : Config) (raw : RawAnonymizeRequest)
    (h : raw.language = none) :
    languageErrors cfg raw.language = []
    ∧ (∀ req, validateRequest cfg raw = .ok req → req.language = cfg.DEFAULT_LANGUAGE)
    ∧ defaultConfig.DEFAULT_LANGUAGE ∈ defaultConfig.SUPPORTED_LANGUAGES := by
  refine ⟨by rw [h]; rfl, ?_, by decide⟩
  intro req hok
  simp only [validateRequest] at hok
  split at hok
  · injection hok with h1
    rw [← h1, h]
    rfl
  · exact Except.noConfusion hok

/-- C10 witness: the body `{"text": "hi"}` validates to a request whose
language is the default language of the default configuration. -/
theorem c10_default_language_witness :
    reqHi.language = defaultConfig.DEFAULT_LANGUAGE :=
  (c10_default_language defaultConfig rawHi rfl).2.1 reqHi rfl

end PiiAnonymizer
